import Mathlib

/-!
# ReadKnows model-acquisition scripts: a shallow embedding

This file embeds the four Python acquisition scripts of the repository

  * `tts-api/scripts/download-multitts.py`
  * `tts-api/scripts/download-cosyvoice.py`
  * `tts-api/scripts/download-indextts2.py`
  * `ocr-api/download_models.py`

as pure Lean functions.  Each script is a straight-line sequence of
subprocess invocations, filesystem operations and prints, branching on the
outcomes of those external calls.  We model the outcomes of every external
interaction (subprocess success, file existence, user input, library-call
success) as a record of booleans fixed before the run (the `…Env`
structures), and the script itself as a function from that record to the
list of observable actions it performs, in order, together with the
process exit code.

Modelling conventions, applied uniformly:

  * An `Action.msg s` stands for one consecutive block of `print`
    statements in the source, labelled by the first (or the single
    distinguishing) line of the block; pure progress narration that
    carries no branching and no remediation content is grouped this way.
  * Paths are lists of components; `Path.render` joins them the way the
    scripts interpolate a `Path` into a command line.
  * An uncaught Python exception terminates the process with exit code 1
    after printing a stack trace; this is modelled by an
    `Action.traceback` in the trace and exit code 1.
  * `sys.executable` is modelled by the constant `pythonExe`.
-/

namespace ReadKnows

/-- A filesystem path, as a list of components. -/
abbrev Path := List String

/-- Render a path as the scripts do when interpolating it into a command
line (the components joined by the separator). -/
def Path.render (p : Path) : String :=
  String.intercalate "/" p

/-- Python `sys.executable`, the Python interpreter running the script. -/
def pythonExe : String := "python3"

/-- One observable action of a script run, in program order. -/
inductive Action where
  /-- a `subprocess.run` invocation (or the attempt to start one),
      with the full argument vector -/
  | run (cmd : List String)
  /-- Python `Path.mkdir(parents=True, exist_ok=True)` -/
  | mkdirParents (p : Path)
  /-- Python `shutil.rmtree` -/
  | rmtree (p : Path)
  /-- Python `Path.unlink` -/
  | unlink (p : Path)
  /-- Python `shutil.copytree` or `shutil.copy2` -/
  | copy (src dst : Path)
  /-- Python `os.environ[k] = v` -/
  | setEnv (k v : String)
  /-- a call to `input()` -/
  | readInput
  /-- one consecutive block of `print` statements, labelled by its
      distinguishing line -/
  | msg (s : String)
  /-- a raw Python stack trace surfaced to the user (either
      `traceback.print_exc()` or an uncaught exception) -/
  | traceback
  /-- a `PaddleOCR(...)` constructor call; `variant` numbers the three
      parameter sets tried in `ocr-api/download_models.py` -/
  | paddleInit (variant : Nat)
deriving Repr, DecidableEq

/-! ## `tts-api/scripts/download-multitts.py` -/

/-- Environment of one MultiTTS script run: outcomes of the external
interactions. -/
structure MultiEnv where
  /-- Python `len(sys.argv) >= 2` -/
  argGiven : Bool
  /-- the `pip install multi-tts` subprocess exited with status 0 -/
  pipOk : Bool
deriving Repr, DecidableEq

/-- The `pip install multi-tts` command line of the script. -/
def multittsPipCmd : List String :=
  [pythonExe, "-m", "pip", "install", "multi-tts"]

/-- Function `main` of `download-multitts.py` (plus the `sys.exit` of the
`__main__` guard, which the script only reaches on the usage error: on
every other path `main` returns and the process exits 0).  `modelsDir`
is `sys.argv[1]`; the source binds it and never uses it. -/
def multittsMain (modelsDir : Path) (e : MultiEnv) : List Action × Nat :=
  -- the binding of sys.argv[1] to models_dir has no observable effect
  let _ := modelsDir
  if ¬ e.argGiven then
    ([.msg "Usage: python download-multitts.py <models_dir>"], 1)
  else
    let t0 := [Action.msg "[MultiTTS] 开始安装...", Action.run multittsPipCmd]
    if e.pipOk then
      (t0 ++ [.msg "[MultiTTS] 安装完成（模型会在首次使用时自动下载）"], 0)
    else
      -- the except-branch prints guidance and returns; no sys.exit,
      -- so the process still exits 0
      (t0 ++ [.msg "WARNING: multi-tts 包在 PyPI 上不存在"], 0)

/-! ## `tts-api/scripts/download-indextts2.py` -/

/-- Environment of one IndexTTS2 script run. -/
structure IndexEnv where
  /-- Python `len(sys.argv) >= 2` -/
  argGiven : Bool
  /-- the `git lfs version` probe subprocess succeeded (neither
      `CalledProcessError` nor `FileNotFoundError`) -/
  gitLfsOk : Bool
  /-- Python `indextts2_dir.exists()` at the time of the check -/
  dirExists : Bool
  /-- the `git clone` subprocess exited with status 0 -/
  cloneOk : Bool
  /-- the `pip install -e` subprocess exited with status 0 -/
  pipOk : Bool
deriving Repr, DecidableEq

/-- The IndexTTS2 repository URL cloned by the script. -/
def indexRepoUrl : String := "https://github.com/index-tts/index-tts.git"

/-- The `git clone` command of `download-indextts2.py` for the target
directory `d`. -/
def indexCloneCmd (d : Path) : List String :=
  ["git", "clone", indexRepoUrl, Path.render d]

/-- The `pip install -e` command of `download-indextts2.py`. -/
def indexPipCmd (d : Path) : List String :=
  [pythonExe, "-m", "pip", "install", "-e", Path.render d]

/-- Function `main` of `download-indextts2.py`.  `modelsDir` is `sys.argv[1]`;
the working directory is `models_dir / 'index-tts'`.  The two
`check=True` subprocess calls outside any `try` surface an uncaught
`CalledProcessError` (stack trace, exit code 1) when they fail. -/
def indexMain (modelsDir : Path) (e : IndexEnv) : List Action × Nat :=
  if ¬ e.argGiven then
    ([.msg "Usage: python download-indextts2.py <models_dir>"], 1)
  else
    let dir : Path := modelsDir ++ ["index-tts"]
    let t0 := [Action.msg "[IndexTTS2] 开始下载到:", Action.run ["git", "lfs", "version"]]
    if ¬ e.gitLfsOk then
      (t0 ++ [.msg "ERROR: Git LFS 未安装"], 1)
    else
      let t1 := t0 ++ [.msg "[IndexTTS2] Git LFS 已安装:"]
      if ¬ e.dirExists then
        let t2 := t1 ++ [.msg "[IndexTTS2] 克隆仓库...", .run (indexCloneCmd dir)]
        if ¬ e.cloneOk then
          (t2 ++ [.traceback], 1)
        else
          let t3 := t2 ++ [.msg "[IndexTTS2] 安装依赖...", .run (indexPipCmd dir)]
          if ¬ e.pipOk then (t3 ++ [.traceback], 1)
          else (t3 ++ [.msg "[IndexTTS2] 下载完成"], 0)
      else
        let t2 := t1 ++ [.msg "[IndexTTS2] 仓库已存在:"]
        let t3 := t2 ++ [.msg "[IndexTTS2] 安装依赖...", .run (indexPipCmd dir)]
        if ¬ e.pipOk then (t3 ++ [.traceback], 1)
        else (t3 ++ [.msg "[IndexTTS2] 下载完成"], 0)

/-! ## `tts-api/scripts/download-cosyvoice.py` -/

/-- One entry of `cosyvoice_source_dir.iterdir()` as seen by method 3 of
the CosyVoice script, together with the outcomes of the probes and the
install attempt on it. -/
structure SubdirEntry where
  /-- Python `subdir.name` -/
  name : String
  /-- Python `subdir.is_dir()` -/
  isDir : Bool
  /-- Python `(subdir / 'setup.py').exists()` -/
  hasSetupPy : Bool
  /-- Python `(subdir / 'pyproject.toml').exists()` -/
  hasPyproject : Bool
  /-- the `pip install -e <subdir>` subprocess exited with status 0 -/
  installOk : Bool
deriving Repr, DecidableEq

/-- Environment of one CosyVoice script run. -/
structure CosyEnv where
  /-- Python `len(sys.argv) >= 2` -/
  argGiven : Bool
  /-- the `git --version` probe succeeded -/
  gitOk : Bool
  /-- Python `sys.platform == 'darwin'` -/
  isDarwin : Bool
  /-- Python `xcodebuild` could be started (no `FileNotFoundError`) -/
  xcodebuildFound : Bool
  /-- Python `xcodebuild -license check` returned 0 -/
  licenseCheckOk : Bool
  /-- Python `input()` returned (no `EOFError` / `KeyboardInterrupt`) -/
  inputOk : Bool
  /-- the stripped, lowered answer equals `y` -/
  answerYes : Bool
  /-- Python `sudo xcodebuild -license accept` exited with status 0 -/
  licenseAcceptOk : Bool
  /-- method 1: direct `pip install git+…` exited with status 0 -/
  pipDirectOk : Bool
  /-- Python `cosyvoice_source_dir.exists()` before the clone -/
  srcDirExists : Bool
  /-- the `git clone` subprocess exited with status 0 -/
  cloneOk : Bool
  /-- Python `(cosyvoice_source_dir / 'setup.py').exists()` -/
  setupPyExists : Bool
  /-- Python `(cosyvoice_source_dir / 'pyproject.toml').exists()` -/
  pyprojectExists : Bool
  /-- Python `python setup.py install` exited with status 0 -/
  setupInstallOk : Bool
  /-- top-level `pip install -e <src>` exited with status 0 -/
  topPipEditableOk : Bool
  /-- the entries of `cosyvoice_source_dir.iterdir()` for method 3 -/
  subdirs : List SubdirEntry
deriving Repr, DecidableEq

/-- Method 1 of the CosyVoice script: direct pip install from the Git
URL. -/
def cosyPipDirectCmd : List String :=
  [pythonExe, "-m", "pip", "install", "git+https://github.com/FunAudioLLM/CosyVoice.git"]

/-- The `git clone --depth 1` command of method 2, for clone target
`src`. -/
def cosyCloneCmd (src : Path) : List String :=
  ["git", "clone", "--depth", "1", "https://github.com/FunAudioLLM/CosyVoice.git",
   Path.render src]

/-- The `python setup.py install` command of method 2 (run with
`cwd=cosyvoice_source_dir`). -/
def cosySetupInstallCmd : List String :=
  [pythonExe, "setup.py", "install"]

/-- The top-level `pip install -e <src>` command of method 2. -/
def cosyTopPipCmd (src : Path) : List String :=
  [pythonExe, "-m", "pip", "install", "-e", Path.render src]

/-- The per-subdirectory `pip install -e` command of method 3. -/
def cosySubPipCmd (src : Path) (name : String) : List String :=
  [pythonExe, "-m", "pip", "install", "-e", Path.render (src ++ [name])]

/-- The macOS Xcode-license section of the CosyVoice script (lines
34–58).  Returns the actions performed and `some code` when the section
terminates the process with exit code `code`, `none` when control
continues to method 1.  A failing `sudo xcodebuild -license accept`
raises `CalledProcessError`, which the surrounding `except (EOFError,
KeyboardInterrupt)` does not catch: uncaught, stack trace, exit 1. -/
def cosyDarwin (e : CosyEnv) : List Action × Option Nat :=
  if ¬ e.isDarwin then ([], none)
  else
    let t0 := [Action.run ["xcodebuild", "-license", "check"]]
    if ¬ e.xcodebuildFound then
      (t0 ++ [.msg "WARNING: xcodebuild 未找到，跳过 license 检查"], none)
    else if e.licenseCheckOk then (t0, none)
    else
      let t1 := t0 ++ [Action.msg "WARNING: Xcode license 未同意", Action.readInput]
      if ¬ e.inputOk then
        (t1 ++ [.msg "请手动运行: sudo xcodebuild -license"], some 1)
      else if e.answerYes then
        let t2 := t1 ++ [Action.msg "正在同意 Xcode license...",
                         Action.run ["sudo", "xcodebuild", "-license", "accept"]]
        if e.licenseAcceptOk then (t2 ++ [.msg "✅ Xcode license 已同意"], none)
        else (t2 ++ [.traceback], some 1)
      else
        (t1 ++ [.msg "请手动运行: sudo xcodebuild -license"], some 1)

/-- The method-3 loop of the CosyVoice script (lines 128–152): walk the
entries of `cosyvoice_source_dir`, and for each directory entry holding
an install descriptor, attempt `pip install -e`; return on the first
success (`true`), failures continue the loop. -/
def cosySubdirLoop (srcDir : Path) : List SubdirEntry → List Action × Bool
  | [] => ([], false)
  | d :: rest =>
    if d.isDir then
      if d.hasSetupPy then
        let acts := [Action.msg ("[CosyVoice] 在 " ++ d.name ++ " 中找到 setup.py..."),
                     Action.run (cosySubPipCmd srcDir d.name)]
        if d.installOk then
          (acts ++ [.msg ("✅ CosyVoice 安装成功（方法3: " ++ d.name ++ "）")], true)
        else
          let r := cosySubdirLoop srcDir rest
          (acts ++ r.1, r.2)
      else if d.hasPyproject then
        let acts := [Action.msg ("[CosyVoice] 在 " ++ d.name ++ " 中找到 pyproject.toml..."),
                     Action.run (cosySubPipCmd srcDir d.name)]
        if d.installOk then
          (acts ++ [.msg ("✅ CosyVoice 安装成功（方法3: " ++ d.name ++ "）")], true)
        else
          let r := cosySubdirLoop srcDir rest
          (acts ++ r.1, r.2)
      else cosySubdirLoop srcDir rest
    else cosySubdirLoop srcDir rest

/-- Function `main` of `download-cosyvoice.py`. -/
def cosyMain (modelsDir : Path) (e : CosyEnv) : List Action × Nat :=
  if ¬ e.argGiven then
    ([.msg "Usage: python download-cosyvoice.py <models_dir>"], 1)
  else
    let srcDir : Path := modelsDir ++ ["cosyvoice-source"]
    let t0 := [Action.msg "[CosyVoice] 开始安装...", Action.run ["git", "--version"]]
    if ¬ e.gitOk then
      (t0 ++ [.msg "ERROR: Git 未安装或不可用"], 1)
    else
      let dw := cosyDarwin e
      match dw.2 with
      | some c => (t0 ++ dw.1, c)
      | none =>
        let t1 := t0 ++ dw.1 ++ [Action.msg "[CosyVoice] 尝试方法1: 使用 pip 安装...",
                                 Action.run cosyPipDirectCmd]
        if e.pipDirectOk then (t1 ++ [.msg "✅ CosyVoice 安装成功（方法1）"], 0)
        else
          let t2 := t1 ++ [Action.msg "⚠️  方法1 失败，尝试方法2...",
                           Action.msg "[CosyVoice] 尝试方法2: 手动克隆仓库...",
                           Action.mkdirParents modelsDir]
          let t3 := t2 ++ (if e.srcDirExists then
                             [Action.msg "[CosyVoice] 清理已存在的目录:",
                              Action.rmtree srcDir]
                           else [])
          let t4 := t3 ++ [Action.msg "[CosyVoice] 克隆仓库到:",
                           Action.run (cosyCloneCmd srcDir)]
          if ¬ e.cloneOk then
            (t4 ++ [.msg "ERROR: 克隆仓库失败:"], 1)
          else if e.setupPyExists then
            let t5 := t4 ++ [Action.msg "[CosyVoice] 找到 setup.py，使用 setup.py 安装...",
                             Action.run cosySetupInstallCmd]
            if e.setupInstallOk then
              (t5 ++ [.msg "✅ CosyVoice 安装成功（方法2: setup.py）"], 0)
            else
              (t5 ++ [Action.msg "ERROR: setup.py 安装失败:",
                      Action.msg "ERROR: CosyVoice 安装失败"], 1)
          else if e.pyprojectExists then
            let t5 := t4 ++ [Action.msg "[CosyVoice] 找到 pyproject.toml，使用 pip 安装...",
                             Action.run (cosyTopPipCmd srcDir)]
            if e.topPipEditableOk then
              (t5 ++ [.msg "✅ CosyVoice 安装成功（方法2: pyproject.toml）"], 0)
            else
              (t5 ++ [Action.msg "ERROR: pyproject.toml 安装失败:",
                      Action.msg "ERROR: CosyVoice 安装失败"], 1)
          else
            let r := cosySubdirLoop srcDir e.subdirs
            let t5 := t4 ++ [Action.msg "[CosyVoice] 尝试方法3: 查找子目录..."] ++ r.1
            if r.2 then (t5, 0)
            else (t5 ++ [.msg "ERROR: CosyVoice 安装失败"], 1)

/-! ## `ocr-api/download_models.py` -/

/-- One entry of a fallback-cache directory, as the relocation loop of
`download_models` sees it: its name, whether it is a directory, the
state of the same-named entry in the destination, and whether handling
it raised an exception (the exception point is abstracted to the copy
step of the item). -/
structure ItemEntry where
  /-- Python `item.name` -/
  name : String
  /-- Python `item.is_dir()` -/
  isDir : Bool
  /-- Python `dest_item.exists()` -/
  destExists : Bool
  /-- Python `dest_item.is_dir()` -/
  destIsDir : Bool
  /-- copying this item raised an exception -/
  copyRaises : Bool
deriving Repr, DecidableEq

/-- Environment of one OCR `download_models` run. -/
structure OcrEnv where
  /-- the working directory, prepended by `Path.absolute()` to a
      relative `models_dir` (take `[]` for an absolute argument) -/
  cwd : Path
  /-- the home directory expanded from the tilde by `os.path.expanduser` -/
  homeDir : Path
  /-- Python `from paddleocr import PaddleOCR` succeeded -/
  importOk : Bool
  /-- the PaddleOCR 3.x-parameter constructor call succeeded -/
  init3Ok : Bool
  /-- the PaddleOCR 2.6.x-parameter constructor call succeeded -/
  init26Ok : Bool
  /-- the no-argument `PaddleOCR()` constructor call succeeded -/
  initPlainOk : Bool
  /-- Python `default_models_dir.exists() and any(default_models_dir.iterdir())` -/
  defaultNonEmpty : Bool
  /-- Python `home_models_dir.exists() and any(home_models_dir.iterdir())` -/
  homeNonEmpty : Bool
  /-- Python `not any(models_path.iterdir())` after the download attempt -/
  destEmpty : Bool
  /-- the entries of `default_models_dir.iterdir()` -/
  defaultItems : List ItemEntry
  /-- the entries of `home_models_dir.iterdir()` -/
  homeItems : List ItemEntry
deriving Repr, DecidableEq

/-- The directory `/root/.paddlex/official_models`, the hard-coded default cache
location probed by `download_models`. -/
def defaultModelsDir : Path := ["/root", ".paddlex", "official_models"]

/-- The directory `~/.paddlex/official_models` after tilde expansion. -/
def homeModelsDir (e : OcrEnv) : Path :=
  e.homeDir ++ [".paddlex", "official_models"]

/-- The per-item copy loop of `download_models` (lines 72–82): for each
entry of the source cache, remove the same-named destination entry when
present, then copy; an exception on an item aborts the rest of the
location.  Returns the actions and whether the whole location was
processed without exception. -/
def copyItems (destDir srcDir : Path) : List ItemEntry → List Action × Bool
  | [] => ([], true)
  | i :: rest =>
    let destItem := destDir ++ [i.name]
    let pre :=
      if i.destExists then
        (if i.destIsDir then [Action.rmtree destItem] else [Action.unlink destItem])
      else []
    if i.copyRaises then (pre, false)
    else
      let r := copyItems destDir srcDir rest
      (pre ++ [Action.copy (srcDir ++ [i.name]) destItem] ++ r.1, r.2)

/-- The per-location loop of `download_models` (lines 67–86): process
the candidate cache locations in order; `break` after the first
location copied without exception; an exception logs a warning and
moves on to the next location.  (The `source_dir.exists()` re-check
inside the `try` is true by construction: the location was only listed
because it existed.) -/
def copyLocations (destDir : Path) : List (String × Path × List ItemEntry) → List Action
  | [] => []
  | (label, src, items) :: rest =>
    let t0 := [Action.msg ("[模型下载] 从 " ++ label ++ " 复制模型...")]
    let r := copyItems destDir src items
    if r.2 then
      t0 ++ r.1 ++ [.msg "[模型下载] ✅ 模型已复制到目标目录"]
    else
      t0 ++ r.1 ++ [.msg ("[模型下载] ⚠️  从 " ++ label ++ " 复制模型时出错")] ++
        copyLocations destDir rest

/-- Lines 12–28 of `download_models`: create the destination, set the
three process-wide environment variables, and narrate.  The absolute
path is the working directory prepended to a relative `models_dir`. -/
def ocrPrelude (modelsDir : Path) (e : OcrEnv) : List Action :=
  let absolutePath := e.cwd ++ modelsDir
  [Action.mkdirParents modelsDir,
   Action.setEnv "PADDLEX_HOME" (Path.render absolutePath),
   Action.setEnv "PADDLEOCR_HOME" (Path.render absolutePath),
   Action.setEnv "DISABLE_MODEL_SOURCE_CHECK" "True",
   Action.msg "[模型下载] 正在初始化 PaddleOCR 并下载模型..."]

/-- The big `try` block of `download_models` (lines 30–113): import and
initialize PaddleOCR (three constructor attempts), then the relocation
fallback, then the closing report; the catch-all handler prints the
failure message plus the full traceback and makes the function return
`False`.  Lines 88–106 (the closing file listing) are pure reporting
without filesystem writes and are grouped into the final message. -/
def ocrBody (modelsDir : Path) (e : OcrEnv) : List Action × Bool :=
  if ¬ e.importOk then
    ([.msg "[模型下载] ❌ 模型下载失败:", .traceback], false)
  else
    let tA := [Action.msg "[模型下载] 正在下载中文模型...", Action.paddleInit 1]
    let tInit :=
      if e.init3Ok then tA
      else if e.init26Ok then tA ++ [Action.paddleInit 2]
      else tA ++ [Action.paddleInit 2,
                  Action.msg "[模型下载] 警告: 使用兼容模式初始化:", Action.paddleInit 3]
    let initOk := e.init3Ok || e.init26Ok || e.initPlainOk
    if ¬ initOk then
      (tInit ++ [.msg "[模型下载] ❌ 模型下载失败:", .traceback], false)
    else
      let t1 := tInit ++ [.msg "[模型下载] ✅ 模型下载完成！"]
      let modelsToCopy : List (String × Path × List ItemEntry) :=
        (if e.defaultNonEmpty then [("默认位置", defaultModelsDir, e.defaultItems)] else []) ++
        (if e.homeNonEmpty ∧ homeModelsDir e ≠ defaultModelsDir then
           [("HOME目录", homeModelsDir e, e.homeItems)]
         else [])
      let t2 := t1 ++
        (if modelsToCopy ≠ [] ∧ e.destEmpty then
           [Action.msg "[模型下载] ⚠️  检测到模型下载到了其他位置，正在复制到目标目录..."] ++
             copyLocations modelsDir modelsToCopy
         else [])
      (t2 ++ [.msg "[模型下载] 模型文件位置:"], true)

/-- Function `download_models` of `ocr-api/download_models.py`: the
prelude followed by the `try` block; the function's boolean result is
the body's. -/
def download_models (modelsDir : Path) (e : OcrEnv) : List Action × Bool :=
  (ocrPrelude modelsDir e ++ (ocrBody modelsDir e).1, (ocrBody modelsDir e).2)

/-- The `__main__` block of `ocr-api/download_models.py`: models
directory from `sys.argv[1]` with default `./models`, then
`sys.exit(0 if success else 1)`. -/
def ocrScript (arg : Option Path) (e : OcrEnv) : List Action × Nat :=
  let dir := arg.getD ["models"]
  let r := download_models dir e
  (Action.msg "PaddleOCR 模型下载工具" :: r.1, if r.2 then 0 else 1)

/-! ## Trace predicates -/

/-- Is this action a `subprocess.run` invocation? -/
def Action.isRun : Action → Bool
  | .run _ => true
  | _ => false

/-- Is this action a script-level filesystem write (directory creation,
removal, or copy performed by the script itself, as opposed to writes
done inside an invoked subprocess)? -/
def Action.isFsWrite : Action → Bool
  | .mkdirParents _ => true
  | .rmtree _ => true
  | .unlink _ => true
  | .copy _ _ => true
  | _ => false

/-- Is this action a `mkdir(parents=True, exist_ok=True)`? -/
def Action.isMkdir : Action → Bool
  | .mkdirParents _ => true
  | _ => false

/-- Is this action a file/directory copy? -/
def Action.isCopy : Action → Bool
  | .copy _ _ => true
  | _ => false

/-- Is this action a removal (`shutil.rmtree` or `Path.unlink`)? -/
def Action.isRemoval : Action → Bool
  | .rmtree _ => true
  | .unlink _ => true
  | _ => false

/-- Predicate `mkdirBeforeWrites dir tr` holds when the first script-level
filesystem write of the trace `tr`, if there is one, is precisely the
creation (with parents) of `dir`. -/
def mkdirBeforeWrites (dir : Path) : List Action → Bool
  | [] => true
  | a :: rest =>
    if a = Action.mkdirParents dir then true
    else if a.isFsWrite then false
    else mkdirBeforeWrites dir rest

/-- Predicate `beforeIn a b tr` holds when `a` occurs in `tr` and `b` occurs
strictly after the first occurrence of `a`. -/
def beforeIn (a b : Action) : List Action → Bool
  | [] => false
  | x :: rest => if x = a then decide (b ∈ rest) else beforeIn a b rest

/-! ### Helper lemmas about the trace predicates -/

theorem mkdirBeforeWrites_append_of_noWrite (dir : Path) (l₁ l₂ : List Action)
    (h : ∀ a ∈ l₁, a.isFsWrite = false) :
    mkdirBeforeWrites dir (l₁ ++ l₂) = mkdirBeforeWrites dir l₂ := by
  induction l₁ with
  | nil => simp
  | cons a rest ih =>
    have ha : a.isFsWrite = false := h a (by simp)
    have hne : a ≠ Action.mkdirParents dir := by
      intro hEq; subst hEq; simp [Action.isFsWrite] at ha
    simp only [List.cons_append, mkdirBeforeWrites, if_neg hne, ha]
    simp only [Bool.false_eq_true, if_false]
    exact ih (fun x hx => h x (by simp [hx]))

theorem mkdirBeforeWrites_of_noWrite (dir : Path) (l : List Action)
    (h : ∀ a ∈ l, a.isFsWrite = false) :
    mkdirBeforeWrites dir l = true := by
  have := mkdirBeforeWrites_append_of_noWrite dir l [] h
  simpa using this

theorem mkdirBeforeWrites_cons_self (dir : Path) (l : List Action) :
    mkdirBeforeWrites dir (Action.mkdirParents dir :: l) = true := by
  simp [mkdirBeforeWrites]

theorem beforeIn_append_of_notMem (a b : Action) (l₁ l₂ : List Action)
    (h : a ∉ l₁) :
    beforeIn a b (l₁ ++ l₂) = beforeIn a b l₂ := by
  induction l₁ with
  | nil => simp
  | cons x rest ih =>
    have hxa : x ≠ a := by
      intro hEq; exact h (by simp [hEq])
    simp only [List.cons_append, beforeIn, if_neg hxa]
    exact ih (fun hm => h (by simp [hm]))

theorem beforeIn_cons_self (a b : Action) (l : List Action) :
    beforeIn a b (a :: l) = decide (b ∈ l) := by
  simp [beforeIn]

/-! Step lemmas letting `simp` evaluate the trace predicates across the
non-write actions that precede the interesting one. -/

@[simp]
theorem mkdirBW_msg (dir : Path) (s : String) (l : List Action) :
    mkdirBeforeWrites dir (Action.msg s :: l) = mkdirBeforeWrites dir l := by
  simp [mkdirBeforeWrites, Action.isFsWrite]

@[simp]
theorem mkdirBW_run (dir : Path) (c : List String) (l : List Action) :
    mkdirBeforeWrites dir (Action.run c :: l) = mkdirBeforeWrites dir l := by
  simp [mkdirBeforeWrites, Action.isFsWrite]

@[simp]
theorem mkdirBW_readInput (dir : Path) (l : List Action) :
    mkdirBeforeWrites dir (Action.readInput :: l) = mkdirBeforeWrites dir l := by
  simp [mkdirBeforeWrites, Action.isFsWrite]

@[simp]
theorem mkdirBW_traceback (dir : Path) (l : List Action) :
    mkdirBeforeWrites dir (Action.traceback :: l) = mkdirBeforeWrites dir l := by
  simp [mkdirBeforeWrites, Action.isFsWrite]

@[simp]
theorem mkdirBW_self (dir : Path) (l : List Action) :
    mkdirBeforeWrites dir (Action.mkdirParents dir :: l) = true := by
  simp [mkdirBeforeWrites]

@[simp]
theorem mkdirBW_nil (dir : Path) : mkdirBeforeWrites dir [] = true := rfl

@[simp]
theorem beforeIn_rmtree_msg (p : Path) (b : Action) (s : String) (l : List Action) :
    beforeIn (Action.rmtree p) b (Action.msg s :: l) = beforeIn (Action.rmtree p) b l := by
  simp [beforeIn]

@[simp]
theorem beforeIn_rmtree_run (p : Path) (b : Action) (c : List String) (l : List Action) :
    beforeIn (Action.rmtree p) b (Action.run c :: l) = beforeIn (Action.rmtree p) b l := by
  simp [beforeIn]

@[simp]
theorem beforeIn_rmtree_readInput (p : Path) (b : Action) (l : List Action) :
    beforeIn (Action.rmtree p) b (Action.readInput :: l) = beforeIn (Action.rmtree p) b l := by
  simp [beforeIn]

@[simp]
theorem beforeIn_rmtree_mkdir (p q : Path) (b : Action) (l : List Action) :
    beforeIn (Action.rmtree p) b (Action.mkdirParents q :: l) =
      beforeIn (Action.rmtree p) b l := by
  simp [beforeIn]

@[simp]
theorem beforeIn_rmtree_self (p : Path) (b : Action) (l : List Action) :
    beforeIn (Action.rmtree p) b (Action.rmtree p :: l) = decide (b ∈ l) := by
  simp [beforeIn]

@[simp]
theorem beforeIn_mkdir_msg (p : Path) (b : Action) (s : String) (l : List Action) :
    beforeIn (Action.mkdirParents p) b (Action.msg s :: l) =
      beforeIn (Action.mkdirParents p) b l := by
  simp [beforeIn]

@[simp]
theorem beforeIn_mkdir_run (p : Path) (b : Action) (c : List String) (l : List Action) :
    beforeIn (Action.mkdirParents p) b (Action.run c :: l) =
      beforeIn (Action.mkdirParents p) b l := by
  simp [beforeIn]

@[simp]
theorem beforeIn_mkdir_readInput (p : Path) (b : Action) (l : List Action) :
    beforeIn (Action.mkdirParents p) b (Action.readInput :: l) =
      beforeIn (Action.mkdirParents p) b l := by
  simp [beforeIn]

@[simp]
theorem beforeIn_mkdir_self (p : Path) (b : Action) (l : List Action) :
    beforeIn (Action.mkdirParents p) b (Action.mkdirParents p :: l) =
      decide (b ∈ l) := by
  simp [beforeIn]

/-- Every action of the macOS license section is an `xcodebuild` probe,
the `sudo xcodebuild` accept call, a message, an `input()` read, or the
stack trace of the uncaught accept failure; in particular none of them
is a script-level filesystem write. -/
theorem cosyDarwin_noFsWrite (e : CosyEnv) :
    ∀ a ∈ (cosyDarwin e).1, a.isFsWrite = false := by
  intro a ha
  unfold cosyDarwin at ha
  split_ifs at ha <;>
    simp_all <;> rcases ha with ha | ha | ha | ha | ha | ha <;>
    simp_all [Action.isFsWrite]

@[simp]
theorem mkdirBW_darwin (dir : Path) (e : CosyEnv) (l : List Action) :
    mkdirBeforeWrites dir ((cosyDarwin e).1 ++ l) = mkdirBeforeWrites dir l :=
  mkdirBeforeWrites_append_of_noWrite dir _ l (cosyDarwin_noFsWrite e)

@[simp]
theorem beforeIn_rmtree_darwin (p : Path) (b : Action) (e : CosyEnv) (l : List Action) :
    beforeIn (Action.rmtree p) b ((cosyDarwin e).1 ++ l) =
      beforeIn (Action.rmtree p) b l := by
  apply beforeIn_append_of_notMem
  intro hmem
  have := cosyDarwin_noFsWrite e _ hmem
  simp [Action.isFsWrite] at this

@[simp]
theorem beforeIn_mkdir_darwin (p : Path) (b : Action) (e : CosyEnv) (l : List Action) :
    beforeIn (Action.mkdirParents p) b ((cosyDarwin e).1 ++ l) =
      beforeIn (Action.mkdirParents p) b l := by
  apply beforeIn_append_of_notMem
  intro hmem
  have := cosyDarwin_noFsWrite e _ hmem
  simp [Action.isFsWrite] at this

/-- Possible outcomes of the macOS license section: either control
continues to method 1, or the process terminates with exit code 1. -/
theorem cosyDarwin_exit (e : CosyEnv) :
    (cosyDarwin e).2 = none ∨ (cosyDarwin e).2 = some 1 := by
  unfold cosyDarwin
  split_ifs <;> simp

/-- The only subprocesses the macOS license section can start are the
`xcodebuild` license probe and the `sudo xcodebuild` accept call. -/
theorem cosyDarwin_runs (e : CosyEnv) :
    ∀ cmd, Action.run cmd ∈ (cosyDarwin e).1 →
      cmd = ["xcodebuild", "-license", "check"] ∨
      cmd = ["sudo", "xcodebuild", "-license", "accept"] := by
  intro cmd h
  unfold cosyDarwin at h
  split_ifs at h <;> simp_all

/-- A stack trace can leave the macOS license section only from the
uncaught failure of the `sudo xcodebuild -license accept` call. -/
theorem cosyDarwin_traceback (e : CosyEnv)
    (h : Action.traceback ∈ (cosyDarwin e).1) :
    e.isDarwin = true ∧ e.xcodebuildFound = true ∧ e.licenseCheckOk = false ∧
    e.inputOk = true ∧ e.answerYes = true ∧ e.licenseAcceptOk = false := by
  unfold cosyDarwin at h
  split_ifs at h <;> simp_all

/-- When every entry of the subdirectory list fails to install, the
method-3 loop reports failure. -/
theorem cosySubdirLoop_allFail (src : Path) (l : List SubdirEntry)
    (h : ∀ d ∈ l, d.installOk = false) :
    (cosySubdirLoop src l).2 = false := by
  induction l with
  | nil => simp [cosySubdirLoop]
  | cons d rest ih =>
    have hd : d.installOk = false := h d (by simp)
    unfold cosySubdirLoop
    split_ifs <;>
      simp_all [fun x hx => h x (List.mem_cons_of_mem d hx)]

/-- When every entry fails, the subprocesses started by the method-3
loop are exactly one `pip install -e` per directory entry that holds an
install descriptor, in list order. -/
theorem cosySubdirLoop_runs_allFail (src : Path) (l : List SubdirEntry)
    (h : ∀ d ∈ l, d.installOk = false) :
    (cosySubdirLoop src l).1.filter Action.isRun =
      (l.filter (fun d => d.isDir && (d.hasSetupPy || d.hasPyproject))).map
        (fun d => Action.run (cosySubPipCmd src d.name)) := by
  induction l with
  | nil => simp [cosySubdirLoop]
  | cons d rest ih =>
    have hd : d.installOk = false := h d (by simp)
    have ih' := ih (fun x hx => h x (List.mem_cons_of_mem d hx))
    unfold cosySubdirLoop
    split_ifs <;> simp_all [Action.isRun]

/-- The method-3 loop never surfaces a stack trace. -/
theorem cosySubdirLoop_noTraceback (src : Path) (l : List SubdirEntry) :
    Action.traceback ∉ (cosySubdirLoop src l).1 := by
  induction l with
  | nil => simp [cosySubdirLoop]
  | cons d rest ih =>
    unfold cosySubdirLoop
    split_ifs <;> simp_all

/-- The method-3 loop performs no script-level filesystem write. -/
theorem cosySubdirLoop_noFsWrite (src : Path) (l : List SubdirEntry) :
    ∀ a ∈ (cosySubdirLoop src l).1, a.isFsWrite = false := by
  induction l with
  | nil => simp [cosySubdirLoop]
  | cons d rest ih =>
    intro a ha
    unfold cosySubdirLoop at ha
    split_ifs at ha <;>
      simp_all <;>
      rcases ha with ha | ha | ha <;> simp_all [Action.isFsWrite]

/-! ## Exit-code lemmas -/

/-- Every CosyVoice run terminates with exit code 0 or 1. -/
theorem cosyMain_exit01 (dir : Path) (e : CosyEnv) :
    (cosyMain dir e).2 = 0 ∨ (cosyMain dir e).2 = 1 := by
  unfold cosyMain
  rcases cosyDarwin_exit e with hd | hd <;>
    simp only [hd] <;> split_ifs <;> simp

/-- Every IndexTTS2 run terminates with exit code 0 or 1. -/
theorem indexMain_exit01 (dir : Path) (e : IndexEnv) :
    (indexMain dir e).2 = 0 ∨ (indexMain dir e).2 = 1 := by
  unfold indexMain
  split_ifs <;> simp

/-- Every OCR script run terminates with exit code 0 or 1. -/
theorem ocrScript_exit01 (a : Option Path) (e : OcrEnv) :
    (ocrScript a e).2 = 0 ∨ (ocrScript a e).2 = 1 := by
  rcases h : (download_models (a.getD ["models"]) e).2 <;>
    simp [ocrScript, h]

/-- Every MultiTTS run terminates with exit code 0 or 1. -/
theorem multittsMain_exit01 (dir : Path) (e : MultiEnv) :
    (multittsMain dir e).2 = 0 ∨ (multittsMain dir e).2 = 1 := by
  unfold multittsMain
  split_ifs <;> simp

/-- When every install strategy of the CosyVoice run fails, the process
exits with code 1. -/
theorem cosyMain_allFail_exit1 (dir : Path) (e : CosyEnv)
    (h1 : e.pipDirectOk = false) (h2 : e.setupInstallOk = false)
    (h3 : e.topPipEditableOk = false)
    (h4 : ∀ d ∈ e.subdirs, d.installOk = false) :
    (cosyMain dir e).2 = 1 := by
  have hLoop := cosySubdirLoop_allFail (dir ++ ["cosyvoice-source"]) e.subdirs h4
  unfold cosyMain
  rcases cosyDarwin_exit e with hd | hd <;>
    simp only [hd, apply_ite (@Prod.snd (List Action) Nat)] <;>
    split_ifs <;> simp_all

/-- When the final `pip install -e` of the IndexTTS2 run fails, the
process exits with code 1 (every success path requires it). -/
theorem indexMain_pipFail_exit1 (dir : Path) (e : IndexEnv)
    (h : e.pipOk = false) :
    (indexMain dir e).2 = 1 := by
  unfold indexMain
  split_ifs <;> simp_all

/-- When all three PaddleOCR constructor attempts fail, the OCR script
exits with code 1. -/
theorem ocrScript_initFail_exit1 (a : Option Path) (e : OcrEnv)
    (h1 : e.init3Ok = false) (h2 : e.init26Ok = false)
    (h3 : e.initPlainOk = false) :
    (ocrScript a e).2 = 1 := by
  unfold ocrScript download_models ocrBody
  split_ifs <;> simp_all

/-- Whenever the MultiTTS script is given its argument, it exits with
code 0 — also when its single pip-install strategy fails. -/
theorem multittsMain_exit0 (dir : Path) (e : MultiEnv)
    (h : e.argGiven = true) :
    (multittsMain dir e).2 = 0 := by
  unfold multittsMain
  split_ifs <;> simp_all

/-! ## Claim C1 -/

/-- Claim C1, counterexample: a MultiTTS run whose single acquisition
strategy (the `pip install multi-tts` subprocess) fails still exits
with status 0 — its failure branch prints guidance and returns without
`sys.exit` — refuting the claim that the process exit code is 1 (a
non-zero status) whenever the acquisition fails. -/
theorem C1_counterexample :
    Action.msg "WARNING: multi-tts 包在 PyPI 上不存在"
        ∈ (multittsMain ["models"] { argGiven := true, pipOk := false }).1 ∧
    (multittsMain ["models"] { argGiven := true, pipOk := false }).2 = 0 := by
  decide

/-- Claim C1, amended: the CosyVoice, IndexTTS2 and OCR scripts exit 0
on success and 1 on failure — in particular they exit 1 when every
acquisition strategy of the run fails — but the MultiTTS script exits 0
whenever its argument is given, also when its single pip-install
strategy fails. -/
theorem C1_exit_codes :
    (∀ (dir : Path) (e : CosyEnv),
       (cosyMain dir e).2 = 0 ∨ (cosyMain dir e).2 = 1) ∧
    (∀ (dir : Path) (e : IndexEnv),
       (indexMain dir e).2 = 0 ∨ (indexMain dir e).2 = 1) ∧
    (∀ (a : Option Path) (e : OcrEnv),
       (ocrScript a e).2 = 0 ∨ (ocrScript a e).2 = 1) ∧
    (∀ (dir : Path) (e : MultiEnv),
       (multittsMain dir e).2 = 0 ∨ (multittsMain dir e).2 = 1) ∧
    (∀ (dir : Path) (e : CosyEnv),
       e.pipDirectOk = false → e.setupInstallOk = false →
       e.topPipEditableOk = false →
       (∀ d ∈ e.subdirs, d.installOk = false) → (cosyMain dir e).2 = 1) ∧
    (∀ (dir : Path) (e : IndexEnv),
       e.pipOk = false → (indexMain dir e).2 = 1) ∧
    (∀ (a : Option Path) (e : OcrEnv),
       e.init3Ok = false → e.init26Ok = false → e.initPlainOk = false →
       (ocrScript a e).2 = 1) ∧
    (∀ (dir : Path) (e : MultiEnv),
       e.argGiven = true → (multittsMain dir e).2 = 0) :=
  ⟨cosyMain_exit01, indexMain_exit01, ocrScript_exit01, multittsMain_exit01,
   cosyMain_allFail_exit1, indexMain_pipFail_exit1, ocrScript_initFail_exit1,
   multittsMain_exit0⟩

/-- Claim C1, witness: the amended statement evaluated on concrete
all-failing runs of each script. -/
theorem C1_exit_codes_witness :
    (cosyMain ["m"]
      { argGiven := true, gitOk := true, isDarwin := false,
        xcodebuildFound := false, licenseCheckOk := false, inputOk := false,
        answerYes := false, licenseAcceptOk := false, pipDirectOk := false,
        srcDirExists := false, cloneOk := false, setupPyExists := false,
        pyprojectExists := false, setupInstallOk := false,
        topPipEditableOk := false, subdirs := [] }).2 = 1 ∧
    (indexMain ["m"]
      { argGiven := true, gitLfsOk := true, dirExists := false,
        cloneOk := false, pipOk := false }).2 = 1 ∧
    (ocrScript none
      { cwd := [], homeDir := ["/root"], importOk := true, init3Ok := false,
        init26Ok := false, initPlainOk := false, defaultNonEmpty := false,
        homeNonEmpty := false, destEmpty := true, defaultItems := [],
        homeItems := [] }).2 = 1 ∧
    (multittsMain ["m"] { argGiven := true, pipOk := false }).2 = 0 :=
  ⟨C1_exit_codes.2.2.2.2.1 ["m"] _ rfl rfl rfl (by simp),
   C1_exit_codes.2.2.2.2.2.1 ["m"] _ rfl,
   C1_exit_codes.2.2.2.2.2.2.1 none _ rfl rfl rfl,
   C1_exit_codes.2.2.2.2.2.2.2 ["m"] _ rfl⟩

/-! ## Claim C4 -/

/-- Claim C4 (confirmed): when the required external tool is absent —
`git` for the CosyVoice script, `git lfs` for the IndexTTS2 script —
the run prints the tool-missing remediation text, exits with status 1,
and the only subprocess ever attempted is the tool probe itself: no
subsequent subprocess call (all of which depend on that tool) is
attempted. -/
theorem C4_tool_missing :
    (∀ (dir : Path) (e : CosyEnv), e.argGiven = true → e.gitOk = false →
       (cosyMain dir e).2 = 1 ∧
       Action.msg "ERROR: Git 未安装或不可用" ∈ (cosyMain dir e).1 ∧
       ∀ cmd, Action.run cmd ∈ (cosyMain dir e).1 → cmd = ["git", "--version"]) ∧
    (∀ (dir : Path) (e : IndexEnv), e.argGiven = true → e.gitLfsOk = false →
       (indexMain dir e).2 = 1 ∧
       Action.msg "ERROR: Git LFS 未安装" ∈ (indexMain dir e).1 ∧
       ∀ cmd, Action.run cmd ∈ (indexMain dir e).1 → cmd = ["git", "lfs", "version"]) := by
  constructor
  · intro dir e h1 h2
    refine ⟨by simp [cosyMain, h1, h2], by simp [cosyMain, h1, h2], ?_⟩
    intro cmd hcmd
    simp [cosyMain, h1, h2] at hcmd
    exact hcmd
  · intro dir e h1 h2
    refine ⟨by simp [indexMain, h1, h2], by simp [indexMain, h1, h2], ?_⟩
    intro cmd hcmd
    simp [indexMain, h1, h2] at hcmd
    exact hcmd

/-- Claim C4, witness: the statement evaluated on concrete runs with
the required tool absent. -/
theorem C4_tool_missing_witness :
    (cosyMain ["m"]
      { argGiven := true, gitOk := false, isDarwin := false,
        xcodebuildFound := false, licenseCheckOk := false, inputOk := false,
        answerYes := false, licenseAcceptOk := false, pipDirectOk := false,
        srcDirExists := false, cloneOk := false, setupPyExists := false,
        pyprojectExists := false, setupInstallOk := false,
        topPipEditableOk := false, subdirs := [] }).2 = 1 ∧
    (indexMain ["m"]
      { argGiven := true, gitLfsOk := false, dirExists := false,
        cloneOk := false, pipOk := false }).2 = 1 :=
  ⟨(C4_tool_missing.1 ["m"] _ rfl rfl).1, (C4_tool_missing.2 ["m"] _ rfl rfl).1⟩

/-! ## Claim C5 -/

/-- Helper: when the destination directory is non-empty after the
download attempt, the OCR run performs no copy and no removal at all. -/
theorem ocr_nonEmpty_noWrite (dir : Path) (e : OcrEnv)
    (h : e.destEmpty = false) :
    ((download_models dir e).1.all (fun a => !a.isCopy && !a.isRemoval)) = true := by
  unfold download_models ocrPrelude ocrBody
  split_ifs <;> simp_all [Action.isCopy, Action.isRemoval]
  all_goals rcases hP : e.initPlainOk <;>
    simp_all [Action.isCopy, Action.isRemoval]

/-- Claim C5 (confirmed): if the destination directory is non-empty
after the first (download) strategy completes, the OCR run never
relocates files from a fallback cache location into it — no copy
action appears in the trace; the relocation block runs only when the
destination is empty after the attempt. -/
theorem C5_no_relocation_when_nonempty :
    ∀ (dir : Path) (e : OcrEnv), e.destEmpty = false →
      ∀ s d, Action.copy s d ∉ (download_models dir e).1 := by
  intro dir e h s d hmem
  have hall := ocr_nonEmpty_noWrite dir e h
  rw [List.all_eq_true] at hall
  have := hall _ hmem
  simp [Action.isCopy] at this

/-- Claim C5, witness: a concrete run whose destination is non-empty
after the download, evaluated at a copy that the fallback would
otherwise perform. -/
theorem C5_no_relocation_when_nonempty_witness :
    Action.copy (defaultModelsDir ++ ["det"]) ["models", "det"]
      ∉ (download_models ["models"]
          { cwd := [], homeDir := ["/root"], importOk := true,
            init3Ok := true, init26Ok := false, initPlainOk := false,
            defaultNonEmpty := true, homeNonEmpty := false,
            destEmpty := false,
            defaultItems := [{ name := "det", isDir := true,
                               destExists := false, destIsDir := false,
                               copyRaises := false }],
            homeItems := [] }).1 :=
  C5_no_relocation_when_nonempty ["models"] _ rfl _ _

/-! ## Claim C8 -/

/-- Claim C8 (confirmed): before any PaddleOCR constructor call, the
OCR run creates the destination and sets — process-wide — the
home-directory overrides `PADDLEX_HOME` and `PADDLEOCR_HOME` to the
absolute destination path and the flag `DISABLE_MODEL_SOURCE_CHECK` to
`True`; these four actions are literally the first four of every
trace, so no `paddleInit` can precede them. -/
theorem C8_env_vars_before_download :
    ∀ (dir : Path) (e : OcrEnv),
      (download_models dir e).1.take 4 =
        [Action.mkdirParents dir,
         Action.setEnv "PADDLEX_HOME" (Path.render (e.cwd ++ dir)),
         Action.setEnv "PADDLEOCR_HOME" (Path.render (e.cwd ++ dir)),
         Action.setEnv "DISABLE_MODEL_SOURCE_CHECK" "True"] ∧
      ∀ v, Action.paddleInit v ∉ (download_models dir e).1.take 4 := by
  intro dir e
  have h4 : (download_models dir e).1.take 4 =
      [Action.mkdirParents dir,
       Action.setEnv "PADDLEX_HOME" (Path.render (e.cwd ++ dir)),
       Action.setEnv "PADDLEOCR_HOME" (Path.render (e.cwd ++ dir)),
       Action.setEnv "DISABLE_MODEL_SOURCE_CHECK" "True"] := rfl
  refine ⟨h4, ?_⟩
  intro v
  rw [h4]
  simp

/-! ## Claim C10 -/

/-- Claim C10 (confirmed): the MultiTTS script accepts its models-dir
argument but its behaviour is independent of it, it performs no
script-level filesystem write whatsoever, and its only subprocess is
the `pip install multi-tts` call — the directory tree under the
caller-supplied path is untouched by the script itself. -/
theorem C10_multitts_frame :
    (∀ (d₁ d₂ : Path) (e : MultiEnv), multittsMain d₁ e = multittsMain d₂ e) ∧
    (∀ (dir : Path) (e : MultiEnv),
       ((multittsMain dir e).1.all
         (fun a => !a.isFsWrite && (!a.isRun || a == Action.run multittsPipCmd)))
         = true) := by
  constructor
  · intro d₁ d₂ e
    rfl
  · intro dir e
    unfold multittsMain
    split_ifs <;> decide

/-! ## Claim C6 -/

/-- Helper: in every CosyVoice run, the first script-level filesystem
write — when there is one — is the `mkdir(parents=True)` of the
destination directory. -/
theorem cosyMain_mkdirFirst (dir : Path) (e : CosyEnv) :
    mkdirBeforeWrites dir (cosyMain dir e).1 = true := by
  unfold cosyMain
  rcases cosyDarwin_exit e with hd | hd <;>
    simp only [hd] <;> split_ifs <;> simp <;>
    exact mkdirBeforeWrites_of_noWrite dir _ (cosyDarwin_noFsWrite e)

/-- Helper: the IndexTTS2 script performs no script-level filesystem
write at all; every write to the destination happens inside the
subprocesses it starts. -/
theorem indexMain_noFsWrite (dir : Path) (e : IndexEnv) :
    ((indexMain dir e).1.all (fun a => !a.isFsWrite)) = true := by
  unfold indexMain
  split_ifs <;> simp [Action.isFsWrite]

/-- Claim C6, counterexample: an IndexTTS2 run against a non-existent
destination never performs a mkdir at all — the `git clone` strategy is
what creates `models/index-tts` (and any missing parents) — so the
runner does not create the destination before a strategy writes files
into it. -/
theorem C6_counterexample :
    ((indexMain ["models"]
        { argGiven := true, gitLfsOk := true, dirExists := false,
          cloneOk := true, pipOk := true }).1.all (fun a => !a.isMkdir)) = true ∧
    Action.run (indexCloneCmd ["models", "index-tts"])
      ∈ (indexMain ["models"]
          { argGiven := true, gitLfsOk := true, dirExists := false,
            cloneOk := true, pipOk := true }).1 := by
  decide

/-- Helper: whenever a CosyVoice run reaches method 2 — the only place
any strategy writes into the destination directory — the
`mkdir(parents=True)` of the destination precedes the `git clone`
subprocess that writes into it.  The hypotheses are exactly the
conditions under which the clone is attempted at all. -/
theorem cosyMain_mkdir_before_clone (dir : Path) (e : CosyEnv)
    (hArg : e.argGiven = true) (hGit : e.gitOk = true)
    (hDw : (cosyDarwin e).2 = none) (hPip : e.pipDirectOk = false) :
    beforeIn (Action.mkdirParents dir)
      (Action.run (cosyCloneCmd (dir ++ ["cosyvoice-source"])))
      (cosyMain dir e).1 = true := by
  unfold cosyMain
  simp only [hDw]
  split_ifs <;> simp_all

/-- Claim C6, amended: the OCR run creates the destination directory
(with parents) as its very first action, before any strategy runs at
all; the CosyVoice run creates it (with parents) before any strategy
writes into it — in every run that attempts the clone, the only
strategy writing into the destination, the mkdir of the destination
precedes that clone subprocess; the IndexTTS2 script however never
creates the destination itself — it performs no script-level
filesystem write, and the clone subprocess is what creates the target
directory. -/
theorem C6_mkdir_behaviour :
    (∀ (dir : Path) (e : OcrEnv),
       (download_models dir e).1.head? = some (Action.mkdirParents dir)) ∧
    (∀ (dir : Path) (e : CosyEnv),
       e.argGiven = true → e.gitOk = true → (cosyDarwin e).2 = none →
       e.pipDirectOk = false →
       beforeIn (Action.mkdirParents dir)
         (Action.run (cosyCloneCmd (dir ++ ["cosyvoice-source"])))
         (cosyMain dir e).1 = true) ∧
    (∀ (dir : Path) (e : IndexEnv),
       ((indexMain dir e).1.all (fun a => !a.isFsWrite)) = true) :=
  ⟨fun _ _ => rfl, cosyMain_mkdir_before_clone, indexMain_noFsWrite⟩

/-- Claim C6, witness: the amended statement evaluated on a concrete
CosyVoice run that reaches the clone. -/
theorem C6_mkdir_behaviour_witness :
    beforeIn (Action.mkdirParents ["m"])
      (Action.run (cosyCloneCmd ["m", "cosyvoice-source"]))
      (cosyMain ["m"]
        { argGiven := true, gitOk := true, isDarwin := false,
          xcodebuildFound := false, licenseCheckOk := false, inputOk := false,
          answerYes := false, licenseAcceptOk := false, pipDirectOk := false,
          srcDirExists := false, cloneOk := true, setupPyExists := true,
          pyprojectExists := false, setupInstallOk := true,
          topPipEditableOk := false, subdirs := [] }).1 = true :=
  C6_mkdir_behaviour.2.1 ["m"] _ rfl rfl (by rfl) rfl

/-! ## Claim C7 -/

/-- Helper: when the destination repository already exists, the
IndexTTS2 run starts no `git clone`: its only subprocesses are the
Git LFS probe and the dependency install. -/
theorem indexMain_existing_noClone (dir : Path) (e : IndexEnv)
    (h : e.dirExists = true) :
    Action.run (indexCloneCmd (dir ++ ["index-tts"])) ∉ (indexMain dir e).1 := by
  intro hmem
  unfold indexMain at hmem
  split_ifs at hmem <;>
    simp_all [indexCloneCmd, indexPipCmd, pythonExe]

/-- Helper: when the CosyVoice run reaches method 2 with a leftover
source directory, the `shutil.rmtree` of that directory precedes the
fresh `git clone` into it. -/
theorem cosyMain_clean_before_clone (dir : Path) (e : CosyEnv)
    (hArg : e.argGiven = true) (hGit : e.gitOk = true)
    (hDw : (cosyDarwin e).2 = none) (hPip : e.pipDirectOk = false)
    (hSrc : e.srcDirExists = true) :
    beforeIn (Action.rmtree (dir ++ ["cosyvoice-source"]))
      (Action.run (cosyCloneCmd (dir ++ ["cosyvoice-source"])))
      (cosyMain dir e).1 = true := by
  unfold cosyMain
  simp only [hDw]
  split_ifs <;> simp_all

/-- Claim C7 (confirmed): re-running the acquisition against a
destination that already holds the asset never leaves a mixed state:
the IndexTTS2 run detects the existing repository and performs no new
clone; the CosyVoice run removes the existing source directory
entirely (rmtree) before its re-clone writes into it; and the OCR run,
whose destination is non-empty after the download attempt, performs
neither a copy nor a removal in the destination. -/
theorem C7_no_mixed_state :
    (∀ (dir : Path) (e : IndexEnv), e.dirExists = true →
       Action.run (indexCloneCmd (dir ++ ["index-tts"])) ∉ (indexMain dir e).1) ∧
    (∀ (dir : Path) (e : CosyEnv),
       e.argGiven = true → e.gitOk = true → (cosyDarwin e).2 = none →
       e.pipDirectOk = false → e.srcDirExists = true →
       beforeIn (Action.rmtree (dir ++ ["cosyvoice-source"]))
         (Action.run (cosyCloneCmd (dir ++ ["cosyvoice-source"])))
         (cosyMain dir e).1 = true) ∧
    (∀ (dir : Path) (e : OcrEnv), e.destEmpty = false →
       ((download_models dir e).1.all (fun a => !a.isCopy && !a.isRemoval)) = true) :=
  ⟨indexMain_existing_noClone, cosyMain_clean_before_clone, ocr_nonEmpty_noWrite⟩

/-- Claim C7, witness: the statement evaluated on concrete second
runs of each script against an already-populated destination. -/
theorem C7_no_mixed_state_witness :
    (Action.run (indexCloneCmd ["m", "index-tts"])
       ∉ (indexMain ["m"]
           { argGiven := true, gitLfsOk := true, dirExists := true,
             cloneOk := true, pipOk := true }).1) ∧
    (beforeIn (Action.rmtree ["m", "cosyvoice-source"])
       (Action.run (cosyCloneCmd ["m", "cosyvoice-source"]))
       (cosyMain ["m"]
         { argGiven := true, gitOk := true, isDarwin := false,
           xcodebuildFound := false, licenseCheckOk := false, inputOk := false,
           answerYes := false, licenseAcceptOk := false, pipDirectOk := false,
           srcDirExists := true, cloneOk := true, setupPyExists := true,
           pyprojectExists := false, setupInstallOk := true,
           topPipEditableOk := false, subdirs := [] }).1 = true) ∧
    (((download_models ["m"]
        { cwd := [], homeDir := ["/root"], importOk := true, init3Ok := true,
          init26Ok := false, initPlainOk := false, defaultNonEmpty := true,
          homeNonEmpty := false, destEmpty := false,
          defaultItems := [{ name := "det", isDir := true, destExists := false,
                             destIsDir := false, copyRaises := false }],
          homeItems := [] }).1.all (fun a => !a.isCopy && !a.isRemoval)) = true) :=
  ⟨C7_no_mixed_state.1 ["m"] _ rfl,
   C7_no_mixed_state.2.1 ["m"] _ rfl rfl rfl rfl rfl,
   C7_no_mixed_state.2.2 ["m"] _ rfl⟩

/-! ## Claim C2 -/

/-- Helper: when method 1 (direct pip) fails and the run got past the
tool and license gates, the runner proceeds to method 2 — the
`git clone` subprocess is attempted. -/
theorem cosyMain_pipFail_clones (dir : Path) (e : CosyEnv)
    (hArg : e.argGiven = true) (hGit : e.gitOk = true)
    (hDw : (cosyDarwin e).2 = none) (hPip : e.pipDirectOk = false) :
    Action.run (cosyCloneCmd (dir ++ ["cosyvoice-source"])) ∈ (cosyMain dir e).1 := by
  unfold cosyMain
  simp only [hDw]
  split_ifs <;> simp_all

/-- Helper: a clone failure aborts the CosyVoice run at once: the exit
code is 1 and the subprocesses of the whole run are exactly the git
probe, the license-section calls, the failed pip attempt and the failed
clone — no install subprocess is ever attempted. -/
theorem cosyMain_cloneFail_aborts (dir : Path) (e : CosyEnv)
    (hArg : e.argGiven = true) (hGit : e.gitOk = true)
    (hDw : (cosyDarwin e).2 = none) (hPip : e.pipDirectOk = false)
    (hClone : e.cloneOk = false) :
    (cosyMain dir e).2 = 1 ∧
    (cosyMain dir e).1.filter Action.isRun =
      Action.run ["git", "--version"] ::
        ((cosyDarwin e).1.filter Action.isRun ++
         [Action.run cosyPipDirectCmd,
          Action.run (cosyCloneCmd (dir ++ ["cosyvoice-source"]))]) := by
  unfold cosyMain
  simp only [hDw]
  split_ifs <;> simp_all [Action.isRun]

/-- Claim C2, counterexample: a CosyVoice run in which every strategy
fails (the pip attempt, the clone, and the one subdirectory install
that would also fail) reports failure with exit code 1, yet neither the
top-level install strategy nor the subdirectory strategy was ever
invoked — the clone failure aborted the run — refuting the claim that
before the run reports failure every strategy has been invoked exactly
once. -/
theorem C2_counterexample :
    (cosyMain ["models"]
      { argGiven := true, gitOk := true, isDarwin := false,
        xcodebuildFound := false, licenseCheckOk := false, inputOk := false,
        answerYes := false, licenseAcceptOk := false, pipDirectOk := false,
        srcDirExists := false, cloneOk := false, setupPyExists := true,
        pyprojectExists := false, setupInstallOk := false,
        topPipEditableOk := false,
        subdirs := [{ name := "sub", isDir := true, hasSetupPy := true,
                      hasPyproject := false, installOk := false }] }).2 = 1 ∧
    Action.run cosySetupInstallCmd
      ∉ (cosyMain ["models"]
          { argGiven := true, gitOk := true, isDarwin := false,
            xcodebuildFound := false, licenseCheckOk := false, inputOk := false,
            answerYes := false, licenseAcceptOk := false, pipDirectOk := false,
            srcDirExists := false, cloneOk := false, setupPyExists := true,
            pyprojectExists := false, setupInstallOk := false,
            topPipEditableOk := false,
            subdirs := [{ name := "sub", isDir := true, hasSetupPy := true,
                          hasPyproject := false, installOk := false }] }).1 ∧
    Action.run (cosySubPipCmd ["models", "cosyvoice-source"] "sub")
      ∉ (cosyMain ["models"]
          { argGiven := true, gitOk := true, isDarwin := false,
            xcodebuildFound := false, licenseCheckOk := false, inputOk := false,
            answerYes := false, licenseAcceptOk := false, pipDirectOk := false,
            srcDirExists := false, cloneOk := false, setupPyExists := true,
            pyprojectExists := false, setupInstallOk := false,
            topPipEditableOk := false,
            subdirs := [{ name := "sub", isDir := true, hasSetupPy := true,
                          hasPyproject := false, installOk := false }] }).1 := by
  decide

/-- Claim C2, amended: a failing pip strategy is logged and the runner
proceeds to the clone strategy, and inside method 3 every failing
subdirectory strategy is invoked exactly once, in order; but a clone
failure aborts the run immediately — its subprocesses are exactly the
probes, the pip attempt and the clone — so on an all-failure run the
install strategies after the clone are never invoked. -/
theorem C2_failure_chain :
    (∀ (dir : Path) (e : CosyEnv),
       e.argGiven = true → e.gitOk = true → (cosyDarwin e).2 = none →
       e.pipDirectOk = false →
       Action.run (cosyCloneCmd (dir ++ ["cosyvoice-source"])) ∈ (cosyMain dir e).1) ∧
    (∀ (dir : Path) (e : CosyEnv),
       e.argGiven = true → e.gitOk = true → (cosyDarwin e).2 = none →
       e.pipDirectOk = false → e.cloneOk = false →
       (cosyMain dir e).2 = 1 ∧
       (cosyMain dir e).1.filter Action.isRun =
         Action.run ["git", "--version"] ::
           ((cosyDarwin e).1.filter Action.isRun ++
            [Action.run cosyPipDirectCmd,
             Action.run (cosyCloneCmd (dir ++ ["cosyvoice-source"]))])) ∧
    (∀ (src : Path) (l : List SubdirEntry), (∀ d ∈ l, d.installOk = false) →
       (cosySubdirLoop src l).1.filter Action.isRun =
         (l.filter (fun d => d.isDir && (d.hasSetupPy || d.hasPyproject))).map
           (fun d => Action.run (cosySubPipCmd src d.name))) :=
  ⟨cosyMain_pipFail_clones, cosyMain_cloneFail_aborts, cosySubdirLoop_runs_allFail⟩

/-- Claim C2, witness: the amended statement evaluated on a concrete
run whose pip attempt and clone both fail. -/
theorem C2_failure_chain_witness :
    (cosyMain ["m"]
      { argGiven := true, gitOk := true, isDarwin := false,
        xcodebuildFound := false, licenseCheckOk := false, inputOk := false,
        answerYes := false, licenseAcceptOk := false, pipDirectOk := false,
        srcDirExists := false, cloneOk := false, setupPyExists := false,
        pyprojectExists := false, setupInstallOk := false,
        topPipEditableOk := false, subdirs := [] }).2 = 1 ∧
    (cosySubdirLoop ["m", "cosyvoice-source"]
       [{ name := "a", isDir := true, hasSetupPy := true,
          hasPyproject := false, installOk := false },
        { name := "b", isDir := true, hasSetupPy := false,
          hasPyproject := true, installOk := false }]).1.filter Action.isRun =
      [Action.run (cosySubPipCmd ["m", "cosyvoice-source"] "a"),
       Action.run (cosySubPipCmd ["m", "cosyvoice-source"] "b")] :=
  ⟨(C2_failure_chain.2.1 ["m"] _ rfl rfl (by rfl) rfl rfl).1,
   by
     have h := C2_failure_chain.2.2 ["m", "cosyvoice-source"]
       [{ name := "a", isDir := true, hasSetupPy := true,
          hasPyproject := false, installOk := false },
        { name := "b", isDir := true, hasSetupPy := false,
          hasPyproject := true, installOk := false }] (by decide)
     simpa using h⟩

/-! ## Claim C3 -/

/-- Helper: a successful method 1 short-circuits the run — exit code 0
and the subprocesses are exactly the git probe, the license-section
calls and the successful pip install; no clone and no install strategy
is attempted. -/
theorem cosyMain_method1_stops (dir : Path) (e : CosyEnv)
    (hArg : e.argGiven = true) (hGit : e.gitOk = true)
    (hDw : (cosyDarwin e).2 = none) (hPip : e.pipDirectOk = true) :
    (cosyMain dir e).2 = 0 ∧
    (cosyMain dir e).1.filter Action.isRun =
      Action.run ["git", "--version"] ::
        ((cosyDarwin e).1.filter Action.isRun ++ [Action.run cosyPipDirectCmd]) := by
  unfold cosyMain
  simp only [hDw]
  split_ifs <;> simp_all [Action.isRun]

/-- Helper: when method 1 fails and method 2 succeeds through the
top-level `setup.py`, the run returns success having attempted exactly
the probe, the license-section calls, the pip attempt, the clone and
the `setup.py install` — method 3 is never entered. -/
theorem cosyMain_method2_stops (dir : Path) (e : CosyEnv)
    (hArg : e.argGiven = true) (hGit : e.gitOk = true)
    (hDw : (cosyDarwin e).2 = none) (hPip : e.pipDirectOk = false)
    (hClone : e.cloneOk = true) (hSetup : e.setupPyExists = true)
    (hInst : e.setupInstallOk = true) :
    (cosyMain dir e).2 = 0 ∧
    (cosyMain dir e).1.filter Action.isRun =
      Action.run ["git", "--version"] ::
        ((cosyDarwin e).1.filter Action.isRun ++
         [Action.run cosyPipDirectCmd,
          Action.run (cosyCloneCmd (dir ++ ["cosyvoice-source"])),
          Action.run cosySetupInstallCmd]) := by
  unfold cosyMain
  simp only [hDw]
  split_ifs <;> simp_all [Action.isRun]

/-- Helper: when method 1 fails and method 2 succeeds through the
top-level `pyproject.toml` (no `setup.py` present, `pip install -e`
succeeds), the run returns success having attempted exactly the probe,
the license-section calls, the pip attempt, the clone and the editable
install — method 3 is never entered. -/
theorem cosyMain_method2_pyproject_stops (dir : Path) (e : CosyEnv)
    (hArg : e.argGiven = true) (hGit : e.gitOk = true)
    (hDw : (cosyDarwin e).2 = none) (hPip : e.pipDirectOk = false)
    (hClone : e.cloneOk = true) (hSetup : e.setupPyExists = false)
    (hPyproj : e.pyprojectExists = true) (hInst : e.topPipEditableOk = true) :
    (cosyMain dir e).2 = 0 ∧
    (cosyMain dir e).1.filter Action.isRun =
      Action.run ["git", "--version"] ::
        ((cosyDarwin e).1.filter Action.isRun ++
         [Action.run cosyPipDirectCmd,
          Action.run (cosyCloneCmd (dir ++ ["cosyvoice-source"])),
          Action.run (cosyTopPipCmd (dir ++ ["cosyvoice-source"]))]) := by
  unfold cosyMain
  simp only [hDw]
  split_ifs <;> simp_all [Action.isRun]

/-- Helper: short-circuit inside the method-3 loop: if every entry
before `d` fails and `d` is a directory with a `setup.py` whose install
succeeds, the loop stops at `d` with success — the entries after `d`
contribute nothing to the trace. -/
theorem cosySubdirLoop_stops (src : Path) (l₁ : List SubdirEntry)
    (d : SubdirEntry) (l₂ : List SubdirEntry)
    (h₁ : ∀ x ∈ l₁, x.installOk = false)
    (hdir : d.isDir = true) (hsetup : d.hasSetupPy = true)
    (hok : d.installOk = true) :
    (cosySubdirLoop src (l₁ ++ d :: l₂)).2 = true ∧
    (cosySubdirLoop src (l₁ ++ d :: l₂)).1 =
      (cosySubdirLoop src l₁).1 ++
        [Action.msg ("[CosyVoice] 在 " ++ d.name ++ " 中找到 setup.py..."),
         Action.run (cosySubPipCmd src d.name),
         Action.msg ("✅ CosyVoice 安装成功（方法3: " ++ d.name ++ "）")] := by
  induction l₁ with
  | nil =>
    rw [List.nil_append]
    unfold cosySubdirLoop
    split_ifs <;> simp_all [cosySubdirLoop]
  | cons x rest ih =>
    have hx : x.installOk = false := h₁ x (by simp)
    have ih' := ih (fun y hy => h₁ y (List.mem_cons_of_mem x hy))
    rw [List.cons_append]
    unfold cosySubdirLoop
    split_ifs <;> simp_all

/-- Helper: short-circuit inside the method-3 loop, pyproject variant:
if every entry before `d` fails and `d` is a directory holding only a
`pyproject.toml` whose install succeeds, the loop stops at `d` with
success — the entries after `d` contribute nothing to the trace. -/
theorem cosySubdirLoop_stops_pyproject (src : Path) (l₁ : List SubdirEntry)
    (d : SubdirEntry) (l₂ : List SubdirEntry)
    (h₁ : ∀ x ∈ l₁, x.installOk = false)
    (hdir : d.isDir = true) (hsetup : d.hasSetupPy = false)
    (hpyproj : d.hasPyproject = true) (hok : d.installOk = true) :
    (cosySubdirLoop src (l₁ ++ d :: l₂)).2 = true ∧
    (cosySubdirLoop src (l₁ ++ d :: l₂)).1 =
      (cosySubdirLoop src l₁).1 ++
        [Action.msg ("[CosyVoice] 在 " ++ d.name ++ " 中找到 pyproject.toml..."),
         Action.run (cosySubPipCmd src d.name),
         Action.msg ("✅ CosyVoice 安装成功（方法3: " ++ d.name ++ "）")] := by
  induction l₁ with
  | nil =>
    rw [List.nil_append]
    unfold cosySubdirLoop
    split_ifs <;> simp_all [cosySubdirLoop]
  | cons x rest ih =>
    have hx : x.installOk = false := h₁ x (by simp)
    have ih' := ih (fun y hy => h₁ y (List.mem_cons_of_mem x hy))
    rw [List.cons_append]
    unfold cosySubdirLoop
    split_ifs <;> simp_all

/-- Helper: when methods 1 and 2 fall through to method 3 (no top-level
install descriptor) and the subdirectory loop succeeds, the run returns
success. -/
theorem cosyMain_method3_success (dir : Path) (e : CosyEnv)
    (hArg : e.argGiven = true) (hGit : e.gitOk = true)
    (hDw : (cosyDarwin e).2 = none) (hPip : e.pipDirectOk = false)
    (hClone : e.cloneOk = true) (hSetup : e.setupPyExists = false)
    (hPyproj : e.pyprojectExists = false)
    (hLoop : (cosySubdirLoop (dir ++ ["cosyvoice-source"]) e.subdirs).2 = true) :
    (cosyMain dir e).2 = 0 := by
  unfold cosyMain
  simp only [hDw]
  split_ifs <;> simp_all

/-- Claim C3, counterexample: a CosyVoice run where strategy 1 (pip)
fails, strategy 2 finds a top-level `setup.py` whose install fails, and
a subdirectory strategy would succeed if invoked: the claim predicts
the runner invokes strategies 1..3 and returns success, but the code
exits 1 and the viable subdirectory strategy is never invoked. -/
theorem C3_counterexample :
    (cosyMain ["models"]
      { argGiven := true, gitOk := true, isDarwin := false,
        xcodebuildFound := false, licenseCheckOk := false, inputOk := false,
        answerYes := false, licenseAcceptOk := false, pipDirectOk := false,
        srcDirExists := false, cloneOk := true, setupPyExists := true,
        pyprojectExists := false, setupInstallOk := false,
        topPipEditableOk := false,
        subdirs := [{ name := "good", isDir := true, hasSetupPy := true,
                      hasPyproject := false, installOk := true }] }).2 = 1 ∧
    Action.run (cosySubPipCmd ["models", "cosyvoice-source"] "good")
      ∉ (cosyMain ["models"]
          { argGiven := true, gitOk := true, isDarwin := false,
            xcodebuildFound := false, licenseCheckOk := false, inputOk := false,
            answerYes := false, licenseAcceptOk := false, pipDirectOk := false,
            srcDirExists := false, cloneOk := true, setupPyExists := true,
            pyprojectExists := false, setupInstallOk := false,
            topPipEditableOk := false,
            subdirs := [{ name := "good", isDir := true, hasSetupPy := true,
                          hasPyproject := false, installOk := true }] }).1 := by
  decide

/-- Claim C3, amended: the short-circuit direction holds — a success at
strategy k stops the run at once and later strategies are never
invoked — and the chain reaches strategy k whenever the earlier
strategies fail in their expected mode (pip error; install descriptor
absent; failing subdirectory installs), for both install-descriptor
kinds, `setup.py` and `pyproject.toml`, at the top level as well as
inside method 3.  But when an earlier strategy
fails otherwise (clone failure, or a found top-level install that
fails) the run aborts instead of advancing, so a later viable strategy
may never be invoked. -/
theorem C3_first_success_stops :
    (∀ (dir : Path) (e : CosyEnv),
       e.argGiven = true → e.gitOk = true → (cosyDarwin e).2 = none →
       e.pipDirectOk = true →
       (cosyMain dir e).2 = 0 ∧
       (cosyMain dir e).1.filter Action.isRun =
         Action.run ["git", "--version"] ::
           ((cosyDarwin e).1.filter Action.isRun ++
            [Action.run cosyPipDirectCmd])) ∧
    (∀ (dir : Path) (e : CosyEnv),
       e.argGiven = true → e.gitOk = true → (cosyDarwin e).2 = none →
       e.pipDirectOk = false → e.cloneOk = true → e.setupPyExists = true →
       e.setupInstallOk = true →
       (cosyMain dir e).2 = 0 ∧
       (cosyMain dir e).1.filter Action.isRun =
         Action.run ["git", "--version"] ::
           ((cosyDarwin e).1.filter Action.isRun ++
            [Action.run cosyPipDirectCmd,
             Action.run (cosyCloneCmd (dir ++ ["cosyvoice-source"])),
             Action.run cosySetupInstallCmd])) ∧
    (∀ (dir : Path) (e : CosyEnv),
       e.argGiven = true → e.gitOk = true → (cosyDarwin e).2 = none →
       e.pipDirectOk = false → e.cloneOk = true → e.setupPyExists = false →
       e.pyprojectExists = true → e.topPipEditableOk = true →
       (cosyMain dir e).2 = 0 ∧
       (cosyMain dir e).1.filter Action.isRun =
         Action.run ["git", "--version"] ::
           ((cosyDarwin e).1.filter Action.isRun ++
            [Action.run cosyPipDirectCmd,
             Action.run (cosyCloneCmd (dir ++ ["cosyvoice-source"])),
             Action.run (cosyTopPipCmd (dir ++ ["cosyvoice-source"]))])) ∧
    (∀ (src : Path) (l₁ : List SubdirEntry) (d : SubdirEntry)
       (l₂ : List SubdirEntry),
       (∀ x ∈ l₁, x.installOk = false) →
       d.isDir = true → d.hasSetupPy = true → d.installOk = true →
       (cosySubdirLoop src (l₁ ++ d :: l₂)).2 = true ∧
       (cosySubdirLoop src (l₁ ++ d :: l₂)).1 =
         (cosySubdirLoop src l₁).1 ++
           [Action.msg ("[CosyVoice] 在 " ++ d.name ++ " 中找到 setup.py..."),
            Action.run (cosySubPipCmd src d.name),
            Action.msg ("✅ CosyVoice 安装成功（方法3: " ++ d.name ++ "）")]) ∧
    (∀ (src : Path) (l₁ : List SubdirEntry) (d : SubdirEntry)
       (l₂ : List SubdirEntry),
       (∀ x ∈ l₁, x.installOk = false) →
       d.isDir = true → d.hasSetupPy = false → d.hasPyproject = true →
       d.installOk = true →
       (cosySubdirLoop src (l₁ ++ d :: l₂)).2 = true ∧
       (cosySubdirLoop src (l₁ ++ d :: l₂)).1 =
         (cosySubdirLoop src l₁).1 ++
           [Action.msg ("[CosyVoice] 在 " ++ d.name ++ " 中找到 pyproject.toml..."),
            Action.run (cosySubPipCmd src d.name),
            Action.msg ("✅ CosyVoice 安装成功（方法3: " ++ d.name ++ "）")]) ∧
    (∀ (dir : Path) (e : CosyEnv),
       e.argGiven = true → e.gitOk = true → (cosyDarwin e).2 = none →
       e.pipDirectOk = false → e.cloneOk = true → e.setupPyExists = false →
       e.pyprojectExists = false →
       (cosySubdirLoop (dir ++ ["cosyvoice-source"]) e.subdirs).2 = true →
       (cosyMain dir e).2 = 0) :=
  ⟨cosyMain_method1_stops, cosyMain_method2_stops,
   cosyMain_method2_pyproject_stops, cosySubdirLoop_stops,
   cosySubdirLoop_stops_pyproject, cosyMain_method3_success⟩

/-- Claim C3, witness: the amended statement evaluated on concrete
runs succeeding at method 1, at method 2 via `setup.py`, at method 2
via `pyproject.toml`, and at method-3 subdirectories (both descriptor
kinds) preceded by a failing one. -/
theorem C3_first_success_stops_witness :
    (cosyMain ["m"]
      { argGiven := true, gitOk := true, isDarwin := false,
        xcodebuildFound := false, licenseCheckOk := false, inputOk := false,
        answerYes := false, licenseAcceptOk := false, pipDirectOk := true,
        srcDirExists := false, cloneOk := false, setupPyExists := false,
        pyprojectExists := false, setupInstallOk := false,
        topPipEditableOk := false, subdirs := [] }).2 = 0 ∧
    (cosyMain ["m"]
      { argGiven := true, gitOk := true, isDarwin := false,
        xcodebuildFound := false, licenseCheckOk := false, inputOk := false,
        answerYes := false, licenseAcceptOk := false, pipDirectOk := false,
        srcDirExists := false, cloneOk := true, setupPyExists := true,
        pyprojectExists := false, setupInstallOk := true,
        topPipEditableOk := false, subdirs := [] }).2 = 0 ∧
    (cosyMain ["m"]
      { argGiven := true, gitOk := true, isDarwin := false,
        xcodebuildFound := false, licenseCheckOk := false, inputOk := false,
        answerYes := false, licenseAcceptOk := false, pipDirectOk := false,
        srcDirExists := false, cloneOk := true, setupPyExists := false,
        pyprojectExists := true, setupInstallOk := false,
        topPipEditableOk := true, subdirs := [] }).2 = 0 ∧
    (cosySubdirLoop ["m", "cosyvoice-source"]
      ([{ name := "bad", isDir := true, hasSetupPy := true,
          hasPyproject := false, installOk := false }] ++
       { name := "good", isDir := true, hasSetupPy := true,
         hasPyproject := false, installOk := true } ::
       [{ name := "after", isDir := true, hasSetupPy := true,
          hasPyproject := false, installOk := true }])).2 = true ∧
    (cosySubdirLoop ["m", "cosyvoice-source"]
      ([{ name := "bad", isDir := true, hasSetupPy := true,
          hasPyproject := false, installOk := false }] ++
       { name := "goodpy", isDir := true, hasSetupPy := false,
         hasPyproject := true, installOk := true } ::
       [{ name := "after", isDir := true, hasSetupPy := true,
          hasPyproject := false, installOk := true }])).2 = true :=
  ⟨(C3_first_success_stops.1 ["m"] _ rfl rfl (by rfl) rfl).1,
   (C3_first_success_stops.2.1 ["m"] _ rfl rfl (by rfl) rfl rfl rfl rfl).1,
   (C3_first_success_stops.2.2.1 ["m"] _ rfl rfl (by rfl) rfl rfl rfl rfl rfl).1,
   (C3_first_success_stops.2.2.2.1 ["m", "cosyvoice-source"] _ _ _
     (by decide) rfl rfl rfl).1,
   (C3_first_success_stops.2.2.2.2.1 ["m", "cosyvoice-source"] _ _ _
     (by decide) rfl rfl rfl rfl).1⟩

/-! ## Claim C9 -/

/-- Helper: the MultiTTS script never surfaces a stack trace. -/
theorem multittsMain_noTraceback (dir : Path) (e : MultiEnv) :
    Action.traceback ∉ (multittsMain dir e).1 := by
  unfold multittsMain
  split_ifs <;> simp

set_option maxHeartbeats 1000000 in
/-- Helper: the only way a CosyVoice run surfaces a stack trace is the
uncaught failure of the `sudo xcodebuild -license accept` call inside
the macOS license section; every expected failure (missing git, failed
pip, failed clone, failed installs) prints remediation text only. -/
theorem cosyMain_traceback_only_accept (dir : Path) (e : CosyEnv)
    (h : Action.traceback ∈ (cosyMain dir e).1) :
    e.isDarwin = true ∧ e.xcodebuildFound = true ∧ e.licenseCheckOk = false ∧
    e.inputOk = true ∧ e.answerYes = true ∧ e.licenseAcceptOk = false := by
  have hnl := cosySubdirLoop_noTraceback (dir ++ ["cosyvoice-source"]) e.subdirs
  unfold cosyMain at h
  rcases cosyDarwin_exit e with hd | hd <;> simp only [hd] at h <;>
    split_ifs at h <;> simp_all <;>
    exact cosyDarwin_traceback e h

/-- Helper: every failing OCR download — the import failure and all
three constructor attempts failing are the expected download-failure
modes, network failure included — prints the full traceback. -/
theorem ocr_downloadFail_traceback (dir : Path) (e : OcrEnv)
    (h : e.importOk = false ∨
         (e.init3Ok = false ∧ e.init26Ok = false ∧ e.initPlainOk = false)) :
    Action.traceback ∈ (download_models dir e).1 := by
  unfold download_models ocrPrelude ocrBody
  rcases h with h | ⟨h1, h2, h3⟩ <;> split_ifs <;> simp_all

/-- Helper: a failing clone or dependency install of the IndexTTS2
script raises an uncaught `CalledProcessError`: the stack trace is
surfaced. -/
theorem indexMain_fail_traceback (dir : Path) (e : IndexEnv)
    (hArg : e.argGiven = true) (hLfs : e.gitLfsOk = true)
    (h : (e.dirExists = false ∧ e.cloneOk = false) ∨ e.pipOk = false) :
    Action.traceback ∈ (indexMain dir e).1 := by
  unfold indexMain
  rcases h with ⟨h1, h2⟩ | h <;> split_ifs <;> simp_all

/-- Claim C9, counterexample: an IndexTTS2 run whose `git clone` fails
— a network failure, an expected error category — surfaces a raw stack
trace (the `CalledProcessError` is uncaught), refuting the claim that
expected-failure paths never show a stack trace. -/
theorem C9_counterexample :
    Action.traceback
      ∈ (indexMain ["models"]
          { argGiven := true, gitLfsOk := true, dirExists := false,
            cloneOk := false, pipOk := true }).1 ∧
    (indexMain ["models"]
      { argGiven := true, gitLfsOk := true, dirExists := false,
        cloneOk := false, pipOk := true }).2 = 1 := by
  decide

/-- Claim C9, amended: the MultiTTS script never surfaces a stack
trace, and the CosyVoice script surfaces one only for the unexpected
uncaught failure of the license-accept subprocess — its expected
failures print remediation text only; but the OCR script prints a full
traceback on every download failure (expected network failures
included), and the IndexTTS2 script surfaces an uncaught-exception
traceback whenever its clone or dependency install fails. -/
theorem C9_traceback_surface :
    (∀ (dir : Path) (e : MultiEnv),
       Action.traceback ∉ (multittsMain dir e).1) ∧
    (∀ (dir : Path) (e : CosyEnv),
       Action.traceback ∈ (cosyMain dir e).1 →
       e.isDarwin = true ∧ e.xcodebuildFound = true ∧
       e.licenseCheckOk = false ∧ e.inputOk = true ∧ e.answerYes = true ∧
       e.licenseAcceptOk = false) ∧
    (∀ (dir : Path) (e : OcrEnv),
       e.importOk = false ∨
         (e.init3Ok = false ∧ e.init26Ok = false ∧ e.initPlainOk = false) →
       Action.traceback ∈ (download_models dir e).1) ∧
    (∀ (dir : Path) (e : IndexEnv),
       e.argGiven = true → e.gitLfsOk = true →
       (e.dirExists = false ∧ e.cloneOk = false) ∨ e.pipOk = false →
       Action.traceback ∈ (indexMain dir e).1) :=
  ⟨multittsMain_noTraceback, cosyMain_traceback_only_accept,
   ocr_downloadFail_traceback, indexMain_fail_traceback⟩

/-- Claim C9, witness: the amended statement evaluated on a concrete
failing OCR download and a concrete failing IndexTTS2 install. -/
theorem C9_traceback_surface_witness :
    Action.traceback
      ∈ (download_models ["m"]
          { cwd := [], homeDir := ["/root"], importOk := true,
            init3Ok := false, init26Ok := false, initPlainOk := false,
            defaultNonEmpty := false, homeNonEmpty := false,
            destEmpty := true, defaultItems := [], homeItems := [] }).1 ∧
    Action.traceback
      ∈ (indexMain ["m"]
          { argGiven := true, gitLfsOk := true, dirExists := true,
            cloneOk := true, pipOk := false }).1 :=
  ⟨C9_traceback_surface.2.2.1 ["m"] _ (Or.inr ⟨rfl, rfl, rfl⟩),
   C9_traceback_surface.2.2.2 ["m"] _ rfl rfl (Or.inr rfl)⟩

end ReadKnows
